import Mathlib

/-!
Verification development for the Health-Genie retrieval-augmented chatbot.

The development shallowly embeds the retrieval pipeline of the repository:

* `src/create_vectorstore.py` — offline index construction (`create_new_vectorstore`);
* `src/models/chat.py` — the `ChatBot` class: index lifecycle management
  (`_load_vectorstore`), retrieval (`get_rag_response`), the generative HTTP
  call (`_get_gemini_response`) and answer composition (`generate_response`);
* `src/models/vectorstore.py` — a thin wrapper over the FAISS similarity search.

Third-party calls (the FAISS vector index, the embedding client, the PDF
loader, the text splitter, the HTTP client and the filesystem) are opaque to
the repository; they are modelled from the specification's contracts, with
their fallibility exposed as explicit boolean / option oracles in environment
records.  Stateful code is embedded as pure functions from an environment to a
result together with the final filesystem state and a trace of events.
-/

namespace HealthGenie

/-- A document chunk: raw text plus the `source` and 1-based `page` metadata
carried by every LangChain document in this repository. -/
structure Doc where
  text : String
  source : String
  page : Nat
deriving DecidableEq

/-- Modelled from the spec: a vector index is an ordered collection of
(embedding vector, chunk) pairs (§3 "Vector Index"); vectors are integer
lists, one per chunk, produced by a deterministic embedding function. -/
structure VIndex where
  chunks : List Doc
  vecs : List (List Int)
deriving DecidableEq

/-- Modelled from the spec: `FAISS.from_documents` embeds every chunk's text
and builds the index over the resulting vectors (§4.4 `build`). -/
def FAISS_from_documents (emb : String → List Int) (chunks : List Doc) : VIndex :=
  { chunks := chunks, vecs := chunks.map (fun c => emb c.text) }

/-- Modelled from the spec: squared L2 distance between two vectors (§4.4
`query`, "k nearest neighbors by the index's distance metric"). -/
def sqDist (u v : List Int) : Int :=
  (List.zipWith (fun a b => (a - b) * (a - b)) u v).sum

/-- Insert a scored chunk into a list sorted by ascending distance, keeping
earlier entries first among equal distances (stable). -/
def insertByDist (x : Int × Doc) : List (Int × Doc) → List (Int × Doc)
  | [] => [x]
  | y :: ys => if x.1 ≤ y.1 then x :: y :: ys else y :: insertByDist x ys

/-- Stable insertion sort by ascending distance. -/
def sortByDist (l : List (Int × Doc)) : List (Int × Doc) :=
  l.foldr insertByDist []

/-- Modelled from the spec: `similarity_search` embeds the query text and
returns the `k` nearest chunks, best first (§4.4 `query`; wrapped by
`VectorStore.similarity_search`, src/models/vectorstore.py lines 38-42). -/
def similarity_search (emb : String → List Int) (vs : VIndex) (query : String)
    (k : Nat) : List Doc :=
  let q := emb query
  let scored := (vs.vecs.zip vs.chunks).map (fun p => (sqDist q p.1, p.2))
  ((sortByDist scored).take k).map Prod.snd

/-- Modelled from the spec: `save_local` serializes the index to a directory,
overwriting existing contents (§4.4 `save`); the disk slot is an
`Option VIndex`. -/
def save_local (vs : VIndex) (_disk : Option VIndex) : Option VIndex :=
  some vs

/-- Modelled from the spec: `load_local` deserializes whatever the directory
holds (§4.4 `load`). -/
def load_local (disk : Option VIndex) : Option VIndex :=
  disk

/-! ### Elementary facts about the distance and the stable sort -/

theorem sqDist_self (v : List Int) : sqDist v v = 0 := by
  induction v with
  | nil => rfl
  | cons a t ih =>
      simp [sqDist, List.zipWith, ih]

theorem sqDist_nonneg (u v : List Int) : 0 ≤ sqDist u v := by
  induction u generalizing v with
  | nil => simp [sqDist]
  | cons a t ih =>
      cases v with
      | nil => simp [sqDist]
      | cons b s =>
          have h1 : 0 ≤ (a - b) * (a - b) := mul_self_nonneg _
          have h2 : 0 ≤ sqDist t s := ih s
          simpa [sqDist, List.zipWith] using add_nonneg h1 h2

theorem mem_insertByDist {y x : Int × Doc} {l : List (Int × Doc)}
    (h : y ∈ insertByDist x l) : y = x ∨ y ∈ l := by
  induction l with
  | nil => simpa [insertByDist] using h
  | cons z zs ih =>
      by_cases hle : x.1 ≤ z.1
      · simp [insertByDist, hle] at h
        rcases h with h | h | h
        · exact Or.inl h
        · exact Or.inr (by simp [h])
        · exact Or.inr (by simp [h])
      · simp [insertByDist, hle] at h
        rcases h with h | h
        · exact Or.inr (by simp [h])
        · rcases ih h with h' | h'
          · exact Or.inl h'
          · exact Or.inr (by simp [h'])

theorem mem_sortByDist {y : Int × Doc} {l : List (Int × Doc)}
    (h : y ∈ sortByDist l) : y ∈ l := by
  induction l with
  | nil => simp [sortByDist] at h
  | cons x xs ih =>
      have h' : y ∈ insertByDist x (sortByDist xs) := by
        simpa [sortByDist] using h
      rcases mem_insertByDist h' with h'' | h''
      · simp [h'']
      · exact List.mem_cons_of_mem _ (ih (by simpa [sortByDist] using h''))

theorem insertByDist_minimal (x : Int × Doc) (l : List (Int × Doc))
    (h : ∀ y ∈ l, x.1 ≤ y.1) : insertByDist x l = x :: l := by
  cases l with
  | nil => rfl
  | cons y ys =>
      have := h y (by simp)
      simp [insertByDist, this]

theorem sortByDist_cons_min (x : Int × Doc) (l : List (Int × Doc))
    (h : ∀ y ∈ sortByDist l, x.1 ≤ y.1) :
    sortByDist (x :: l) = x :: sortByDist l := by
  show insertByDist x (sortByDist l) = x :: sortByDist l
  exact insertByDist_minimal x (sortByDist l) h

theorem similarity_search_self_head (emb : String → List Int) (c0 : Doc)
    (rest : List Doc) :
    similarity_search emb (FAISS_from_documents emb (c0 :: rest)) c0.text 1 = [c0] := by
  have hscored : ((FAISS_from_documents emb (c0 :: rest)).vecs.zip
        (FAISS_from_documents emb (c0 :: rest)).chunks).map
        (fun p => (sqDist (emb c0.text) p.1, p.2))
      = (sqDist (emb c0.text) (emb c0.text), c0) ::
        ((rest.map fun c => emb c.text).zip rest).map
          (fun p => (sqDist (emb c0.text) p.1, p.2)) := rfl
  have hmin : ∀ y ∈ sortByDist (((rest.map fun c => emb c.text).zip rest).map
      (fun p => (sqDist (emb c0.text) p.1, p.2))),
      (sqDist (emb c0.text) (emb c0.text), c0).1 ≤ y.1 := by
    intro y hy
    rcases List.mem_map.mp (mem_sortByDist hy) with ⟨p, _, hp⟩
    have h0 : (sqDist (emb c0.text) (emb c0.text), c0).1 = 0 := sqDist_self _
    rw [h0, ← hp]
    exact sqDist_nonneg _ _
  show ((sortByDist (((FAISS_from_documents emb (c0 :: rest)).vecs.zip
      (FAISS_from_documents emb (c0 :: rest)).chunks).map
      (fun p => (sqDist (emb c0.text) p.1, p.2)))).take 1).map Prod.snd = [c0]
  rw [hscored, sortByDist_cons_min _ _ hmin]
  simp

/-- C1: for every chunk set with N ≥ 1 items, building the index, saving it,
loading it back, and querying with k = 1 using the first chunk's own text
returns that same chunk as the top result (round-trip identity for
exact-match text). -/
theorem C1_build_save_load_query_roundtrip (emb : String → List Int) (c0 : Doc)
    (rest : List Doc) (disk : Option VIndex) :
    load_local (save_local (FAISS_from_documents emb (c0 :: rest)) disk) =
      some (FAISS_from_documents emb (c0 :: rest)) ∧
    similarity_search emb (FAISS_from_documents emb (c0 :: rest)) c0.text 1 = [c0] :=
  ⟨rfl, similarity_search_self_head emb c0 rest⟩

/-! ### Index lifecycle manager (`ChatBot._load_vectorstore`, src/models/chat.py 23-121) -/

/-- State of the on-disk store: contents at `vectorstore/db_faiss` (primary),
`vectorstore/db_faiss_backup` (backup), and whether the advisory lock file
`vectorstore/creation_lock` exists. -/
structure FSState where
  primary : Option VIndex
  backup : Option VIndex
  lock : Bool
deriving DecidableEq

/-- Environment for `_load_vectorstore`: the initial filesystem plus oracles
for every fallible third-party call (embedding-client construction,
`FAISS.load_local` on the primary and backup directories, the PDF loader,
`FAISS.from_documents`, `shutil.copytree`, `FAISS.save_local`).
`pdfDocs = none` models the source PDF being absent from both candidate
directories; `some docs` are the successfully loaded pages. -/
structure Env where
  fs0 : FSState
  embedInitOk : Bool
  primaryLoads : Bool
  backupLoads : Bool
  pdfDocs : Option (List Doc)
  fromDocumentsOk : Bool
  copyOk : Bool
  saveOk : Bool

/-- Observable events of one `_load_vectorstore` run.  `buildStart b` records
that `FAISS.from_documents` began while the lock file's existence was `b`. -/
inductive Ev where
  | loadPrimary (ok : Bool)
  | loadBackup (ok : Bool)
  | touchLock
  | rmLock
  | pdfMissing
  | emptyChunks
  | buildStart (lockHeld : Bool)
  | buildExc
  | copyPrimaryToBackup
  | copyExc
  | savePrimary
  | saveExc
deriving DecidableEq

/-- The rebuild phase of `_load_vectorstore` (src/models/chat.py lines
54-114): touch the lock file, probe the PDF, load and split it, build the
index, snapshot the old primary to the backup path, save the new index, and
remove the lock on every exit (success, missing PDF, empty chunks, or any
exception, lines 64-65, 84-85, 104-105, 112-113). -/
def rebuild (emb : String → List Int) (split : List Doc → List Doc)
    (env : Env) : Option VIndex × FSState × List Ev :=
  let fs1 : FSState := { env.fs0 with lock := true }
  match env.pdfDocs with
  | none =>
      (none, { fs1 with lock := false }, [Ev.touchLock, Ev.pdfMissing, Ev.rmLock])
  | some documents =>
      let chunks := split documents
      if chunks.isEmpty then
        (none, { fs1 with lock := false }, [Ev.touchLock, Ev.emptyChunks, Ev.rmLock])
      else
        let tr1 := [Ev.touchLock, Ev.buildStart fs1.lock]
        if env.fromDocumentsOk = false then
          (none, { fs1 with lock := false }, tr1 ++ [Ev.buildExc, Ev.rmLock])
        else
          let vs := FAISS_from_documents emb chunks
          match fs1.primary with
          | some p =>
              if env.copyOk = false then
                (none, { fs1 with backup := none, lock := false },
                  tr1 ++ [Ev.copyExc, Ev.rmLock])
              else
                let tr2 := tr1 ++ [Ev.copyPrimaryToBackup]
                if env.saveOk = false then
                  (none, { fs1 with backup := some p, lock := false },
                    tr2 ++ [Ev.saveExc, Ev.rmLock])
                else
                  (some vs, { primary := some vs, backup := some p, lock := false },
                    tr2 ++ [Ev.savePrimary, Ev.rmLock])
          | none =>
              if env.saveOk = false then
                (none, { fs1 with lock := false }, tr1 ++ [Ev.saveExc, Ev.rmLock])
              else
                (some vs, { fs1 with primary := some vs, lock := false },
                  tr1 ++ [Ev.savePrimary, Ev.rmLock])

/-- `ChatBot._load_vectorstore` (src/models/chat.py lines 23-121): if the
primary directory exists and no lock file is present, try to load it; on a
load exception try the backup; otherwise (including when a lock file is
present or the primary is absent) fall through to the rebuild phase.  A
failure while constructing the embedding client is caught by the outer
handler, which removes any existing lock file and returns `None`. -/
def loadVectorstore (emb : String → List Int) (split : List Doc → List Doc)
    (env : Env) : Option VIndex × FSState × List Ev :=
  if env.embedInitOk = false then
    (none, { env.fs0 with lock := false },
      if env.fs0.lock then [Ev.rmLock] else [])
  else
    match env.fs0.primary with
    | some p =>
        if env.fs0.lock = false then
          if env.primaryLoads then
            (some p, env.fs0, [Ev.loadPrimary true])
          else
            match env.fs0.backup with
            | some b =>
                if env.backupLoads then
                  (some b, env.fs0, [Ev.loadPrimary false, Ev.loadBackup true])
                else
                  let r := rebuild emb split env
                  (r.1, r.2.1, [Ev.loadPrimary false, Ev.loadBackup false] ++ r.2.2)
            | none =>
                let r := rebuild emb split env
                (r.1, r.2.1, [Ev.loadPrimary false] ++ r.2.2)
        else
          rebuild emb split env
    | none => rebuild emb split env

/-- Invariants of the rebuild phase: the lock file is gone in the final
state, the build only ever starts while the lock file exists, the lock
removal and creation are both on the trace, and no load of the primary or
backup index is attempted. -/
theorem rebuild_inv (emb : String → List Int) (split : List Doc → List Doc)
    (env : Env) :
    (rebuild emb split env).2.1.lock = false ∧
    Ev.buildStart false ∉ (rebuild emb split env).2.2 ∧
    Ev.rmLock ∈ (rebuild emb split env).2.2 ∧
    Ev.touchLock ∈ (rebuild emb split env).2.2 ∧
    (∀ ok, Ev.loadPrimary ok ∉ (rebuild emb split env).2.2 ∧
           Ev.loadBackup ok ∉ (rebuild emb split env).2.2) := by
  obtain ⟨⟨pr, bk, lk⟩, ei, pl, bl, pd, fo, co, so⟩ := env
  cases pd with
  | none => simp [rebuild]
  | some documents =>
      cases hc : split documents with
      | nil => simp [rebuild, hc]
      | cons c cs =>
          cases pr <;> cases fo <;> cases co <;> cases so <;>
            simp [rebuild, hc]

/-- C2: during a rebuild the lock-marker file exists (every recorded build
start saw the lock present), and on every exit path of `_load_vectorstore`
the final state has no lock file; whenever the lock was created during the
run, its removal is also on the trace. -/
theorem C2_lock_marker_lifecycle (emb : String → List Int)
    (split : List Doc → List Doc) (env : Env) :
    (loadVectorstore emb split env).2.1.lock = false ∧
    (∀ b, Ev.buildStart b ∈ (loadVectorstore emb split env).2.2 → b = true) ∧
    (Ev.touchLock ∈ (loadVectorstore emb split env).2.2 →
      Ev.rmLock ∈ (loadVectorstore emb split env).2.2) := by
  obtain ⟨⟨pr, bk, lk⟩, ei, pl, bl, pd, fo, co, so⟩ := env
  cases ei with
  | false => cases lk <;> simp [loadVectorstore]
  | true =>
      cases pr with
      | none =>
          obtain ⟨h1, h2, h3, -, -⟩ :=
            rebuild_inv emb split ⟨⟨none, bk, lk⟩, true, pl, bl, pd, fo, co, so⟩
          simpa [loadVectorstore] using ⟨h1, h2, fun _ => h3⟩
      | some p =>
          cases lk with
          | true =>
              obtain ⟨h1, h2, h3, -, -⟩ :=
                rebuild_inv emb split ⟨⟨some p, bk, true⟩, true, pl, bl, pd, fo, co, so⟩
              simpa [loadVectorstore] using ⟨h1, h2, fun _ => h3⟩
          | false =>
              cases pl with
              | true => simp [loadVectorstore]
              | false =>
                  cases bk with
                  | none =>
                      obtain ⟨h1, h2, h3, -, -⟩ :=
                        rebuild_inv emb split
                          ⟨⟨some p, none, false⟩, true, false, bl, pd, fo, co, so⟩
                      simp [loadVectorstore]
                      exact ⟨h1, h2, fun _ => h3⟩
                  | some b =>
                      cases bl with
                      | true => simp [loadVectorstore]
                      | false =>
                          obtain ⟨h1, h2, h3, -, -⟩ :=
                            rebuild_inv emb split
                              ⟨⟨some p, some b, false⟩, true, false, false, pd, fo, co, so⟩
                          simp [loadVectorstore]
                          exact ⟨h1, h2, fun _ => h3⟩

/-- C10: if the lock-marker file exists when the loader runs (and the
embedding client initializes), the loader never attempts to load the primary
or backup index, even when both exist on disk; it proceeds directly to a full
rebuild, re-creating the lock marker. -/
theorem C10_stale_lock_forces_rebuild (emb : String → List Int)
    (split : List Doc → List Doc) (env : Env) (p b : VIndex)
    (hei : env.embedInitOk = true) (hlk : env.fs0.lock = true)
    (hp : env.fs0.primary = some p) (_hb : env.fs0.backup = some b) :
    loadVectorstore emb split env = rebuild emb split env ∧
    (∀ ok, Ev.loadPrimary ok ∉ (loadVectorstore emb split env).2.2 ∧
           Ev.loadBackup ok ∉ (loadVectorstore emb split env).2.2) ∧
    Ev.touchLock ∈ (loadVectorstore emb split env).2.2 := by
  have he : loadVectorstore emb split env = rebuild emb split env := by
    simp [loadVectorstore, hei, hp, hlk]
  obtain ⟨-, -, -, g4, g5⟩ := rebuild_inv emb split env
  refine ⟨he, ?_, ?_⟩
  · rw [he]; exact g5
  · rw [he]; exact g4

/-- C4 (amended): the backup path is attempted only when the primary exists,
no lock file is present, and the primary load raises; in that case, if the
backup exists and loads, the result is the backup content with no rebuild.
When the primary path is absent the loader rebuilds directly, never touching
the backup. -/
theorem C4_backup_only_after_primary_load_failure (emb : String → List Int)
    (split : List Doc → List Doc) (env : Env) (b : VIndex) :
    (env.embedInitOk = true → env.fs0.lock = false → env.primaryLoads = false →
      env.fs0.backup = some b → env.backupLoads = true →
      ∀ p, env.fs0.primary = some p →
      loadVectorstore emb split env =
        (some b, env.fs0, [Ev.loadPrimary false, Ev.loadBackup true])) ∧
    (env.embedInitOk = true → env.fs0.primary = none →
      loadVectorstore emb split env = rebuild emb split env ∧
      ∀ ok, Ev.loadBackup ok ∉ (loadVectorstore emb split env).2.2) := by
  constructor
  · intro hei hlk hpl hb hbl p hp
    simp [loadVectorstore, hei, hlk, hpl, hb, hbl, hp]
  · intro hei hp
    have he : loadVectorstore emb split env = rebuild emb split env := by
      simp [loadVectorstore, hei, hp]
    obtain ⟨-, -, -, -, g5⟩ := rebuild_inv emb split env
    refine ⟨he, fun ok => ?_⟩
    rw [he]; exact (g5 ok).2

/-- The rebuild phase is entered exactly when the embedding client
initializes and no load attempt returns: the primary is absent, or a lock
file is present, or the primary load raises and the backup is absent or also
fails (src/models/chat.py lines 37-55). -/
def rebuildEntered (env : Env) : Bool :=
  env.embedInitOk &&
    !(env.fs0.primary.isSome && !env.fs0.lock &&
      (env.primaryLoads || (env.fs0.backup.isSome && env.backupLoads)))

/-- Outcome of a fully successful rebuild when a primary index already
existed: the old primary is snapshotted to the backup path and the new index
saved to the primary path, with the copy strictly before the save and the
lock removed last. -/
theorem rebuild_success_with_primary (emb : String → List Int)
    (split : List Doc → List Doc) (env : Env) (p : VIndex) (docs : List Doc)
    (c : Doc) (cs : List Doc)
    (hp : env.fs0.primary = some p) (hpdf : env.pdfDocs = some docs)
    (hsplit : split docs = c :: cs) (hfo : env.fromDocumentsOk = true)
    (hco : env.copyOk = true) (hso : env.saveOk = true) :
    rebuild emb split env =
      (some (FAISS_from_documents emb (c :: cs)),
       ⟨some (FAISS_from_documents emb (c :: cs)), some p, false⟩,
       [Ev.touchLock, Ev.buildStart true, Ev.copyPrimaryToBackup,
        Ev.savePrimary, Ev.rmLock]) := by
  simp [rebuild, hpdf, hsplit, hfo, hco, hso, hp]

/-- C3: when a rebuild succeeds and a primary index directory already
existed, the old primary is copied to the backup path (replacing any prior
backup) before the new index is saved to the primary path, and the lock
marker is then removed. -/
theorem C3_old_primary_backed_up_before_save (emb : String → List Int)
    (split : List Doc → List Doc) (env : Env) (p : VIndex) (docs : List Doc)
    (c : Doc) (cs : List Doc)
    (hre : rebuildEntered env = true)
    (hp : env.fs0.primary = some p) (hpdf : env.pdfDocs = some docs)
    (hsplit : split docs = c :: cs) (hfo : env.fromDocumentsOk = true)
    (hco : env.copyOk = true) (hso : env.saveOk = true) :
    (loadVectorstore emb split env).1 = some (FAISS_from_documents emb (c :: cs)) ∧
    (loadVectorstore emb split env).2.1 =
      ⟨some (FAISS_from_documents emb (c :: cs)), some p, false⟩ ∧
    ∃ pre, (loadVectorstore emb split env).2.2 =
        pre ++ [Ev.touchLock, Ev.buildStart true, Ev.copyPrimaryToBackup,
                Ev.savePrimary, Ev.rmLock] ∧
      Ev.copyPrimaryToBackup ∉ pre ∧ Ev.savePrimary ∉ pre := by
  have hreb := rebuild_success_with_primary emb split env p docs c cs
    hp hpdf hsplit hfo hco hso
  have hei : env.embedInitOk = true := by
    have h := hre
    simp [rebuildEntered] at h
    exact h.1
  cases hlk : env.fs0.lock with
  | true =>
      have he : loadVectorstore emb split env = rebuild emb split env := by
        simp [loadVectorstore, hei, hp, hlk]
      rw [he, hreb]
      exact ⟨rfl, rfl, [], rfl, by simp, by simp⟩
  | false =>
      have hrest := hre
      simp [rebuildEntered, hp, hlk] at hrest
      obtain ⟨-, hpl, hbk⟩ := hrest
      cases hbkv : env.fs0.backup with
      | none =>
          have he : loadVectorstore emb split env =
              ((rebuild emb split env).1, (rebuild emb split env).2.1,
               [Ev.loadPrimary false] ++ (rebuild emb split env).2.2) := by
            simp [loadVectorstore, hei, hp, hlk, hpl, hbkv]
          rw [he, hreb]
          exact ⟨rfl, rfl, [Ev.loadPrimary false], rfl, by simp, by simp⟩
      | some b =>
          have hbl : env.backupLoads = false := by
            rcases hbk with h | h
            · rw [hbkv] at h; simp at h
            · exact h
          have he : loadVectorstore emb split env =
              ((rebuild emb split env).1, (rebuild emb split env).2.1,
               [Ev.loadPrimary false, Ev.loadBackup false] ++
                 (rebuild emb split env).2.2) := by
            simp [loadVectorstore, hei, hp, hlk, hpl, hbkv, hbl]
          rw [he, hreb]
          exact ⟨rfl, rfl, [Ev.loadPrimary false, Ev.loadBackup false], rfl,
            by simp, by simp⟩

/-! ### Character-list string predicates

Python's `in` on strings and f-string concatenation are modelled on the
character lists underlying Lean strings. -/

/-- `startsWithL p l` holds when `p` is an initial segment of `l`. -/
def startsWithL : List Char → List Char → Bool
  | [], _ => true
  | _ :: _, [] => false
  | p :: ps, c :: cs => p == c && startsWithL ps cs

/-- `containsSubL pat l` holds when `pat` occurs contiguously in `l`
(Python's `pat in l`). -/
def containsSubL (pat : List Char) : List Char → Bool
  | [] => startsWithL pat []
  | c :: cs => startsWithL pat (c :: cs) || containsSubL pat cs

/-- `s` starts with `pat`. -/
def strStarts (s pat : String) : Bool := startsWithL pat.data s.data

/-- `pat` occurs in `s` (Python's `pat in s`). -/
def strContains (s pat : String) : Bool := containsSubL pat.data s.data

/-- Python's `sep.join(parts)`. -/
def joinWith (sep : String) : List String → String
  | [] => ""
  | [x] => x
  | x :: y :: xs => x ++ sep ++ joinWith sep (y :: xs)

theorem startsWithL_self (l : List Char) : startsWithL l l = true := by
  induction l with
  | nil => rfl
  | cons c cs ih => simp [startsWithL, ih]

theorem startsWithL_append_self (p r : List Char) :
    startsWithL p (p ++ r) = true := by
  induction p with
  | nil => rfl
  | cons c cs ih => simp [startsWithL, ih]

theorem startsWithL_extend (p l r : List Char) (h : startsWithL p l = true) :
    startsWithL p (l ++ r) = true := by
  induction p generalizing l with
  | nil => rfl
  | cons c cs ih =>
      cases l with
      | nil => simp [startsWithL] at h
      | cons x xs =>
          simp [startsWithL] at h ⊢
          exact ⟨h.1, ih xs h.2⟩

theorem containsSubL_of_starts (pat l : List Char)
    (h : startsWithL pat l = true) : containsSubL pat l = true := by
  cases l with
  | nil => simpa [containsSubL] using h
  | cons c cs => simp [containsSubL, h]

theorem containsSubL_append_r (pat l r : List Char)
    (h : containsSubL pat r = true) : containsSubL pat (l ++ r) = true := by
  induction l with
  | nil => simpa using h
  | cons c cs ih => simp [containsSubL, ih]

theorem containsSubL_append_l (pat l r : List Char)
    (h : containsSubL pat l = true) : containsSubL pat (l ++ r) = true := by
  induction l with
  | nil =>
      simp [containsSubL] at h
      cases pat with
      | nil => exact containsSubL_of_starts _ _ rfl
      | cons p ps => simp [startsWithL] at h
  | cons c cs ih =>
      simp [containsSubL] at h ⊢
      rcases h with h | h
      · exact Or.inl (startsWithL_extend _ _ _ h)
      · exact Or.inr (ih h)

theorem strStarts_append2 (a b c : String) : strStarts (a ++ b ++ c) a = true := by
  unfold strStarts
  rw [String.data_append, String.data_append, List.append_assoc]
  exact startsWithL_append_self _ _

theorem strStarts_self (s : String) : strStarts s s = true :=
  startsWithL_self s.data

theorem strContains_append2 (a b c pat : String)
    (h : strContains c pat = true) : strContains (a ++ b ++ c) pat = true := by
  unfold strContains at h ⊢
  rw [String.data_append, String.data_append]
  exact containsSubL_append_r _ _ _ h

theorem strContains_joinWith (sep : String) (l : List String) (x : String)
    (h : x ∈ l) : strContains (joinWith sep l) x = true := by
  induction l with
  | nil => simp at h
  | cons a as ih =>
      cases as with
      | nil =>
          simp at h
          subst h
          show containsSubL x.data (joinWith sep [x]).data = true
          exact containsSubL_of_starts _ _ (startsWithL_self x.data)
      | cons b bs =>
          rcases List.mem_cons.mp h with h' | h'
          · subst h'
            show containsSubL x.data (x ++ sep ++ joinWith sep (b :: bs)).data = true
            rw [String.data_append, String.data_append]
            exact containsSubL_append_l _ _ _
              (containsSubL_append_l _ _ _
                (containsSubL_of_starts _ _ (startsWithL_self x.data)))
          · show containsSubL x.data (a ++ sep ++ joinWith sep (b :: bs)).data = true
            rw [String.data_append, String.data_append]
            exact containsSubL_append_r _ _ _ (ih h')

theorem joinWith_cons_ne_empty (sep h : String) (t : List String)
    (hh : h.data ≠ []) : joinWith sep (h :: t) ≠ "" := by
  cases t with
  | nil =>
      intro he
      exact hh (by rw [show h = "" from he])
  | cons y ys =>
      intro he
      have : (h ++ sep ++ joinWith sep (y :: ys)).data = ([] : List Char) := by
        rw [show h ++ sep ++ joinWith sep (y :: ys) = "" from he]
      rw [String.data_append, String.data_append] at this
      rcases List.append_eq_nil.mp this with ⟨h1, -⟩
      rcases List.append_eq_nil.mp h1 with ⟨h2, -⟩
      exact hh h2

/-! ### Retrieval path (`ChatBot.get_rag_response`, src/models/chat.py 129-161) -/

/-- Environment of one `get_rag_response` call: the cached index (Python
truthiness of `self.vectorstore`) and whether `similarity_search` raises
(`some e` carries the exception text). -/
structure RagEnv where
  vectorstore : Option VIndex
  searchRaises : Option String

/-- Observable events of the retrieval path; `reloadVectorstore` would mark a
re-load attempt of the index. -/
inductive RagEv where
  | search
  | reloadVectorstore
deriving DecidableEq

/-- The per-document citation line `- {source} (Page {page})` (src/models/chat.py line 156). -/
def pageLine (d : Doc) : String :=
  "- " ++ d.source ++ " (Page " ++ toString d.page ++ ")"

/-- `ChatBot.get_rag_response` (src/models/chat.py lines 129-161): returns the
response string together with the trace of retrieval events.  Every exception
inside the body is converted to an `Error in RAG response: …` string by the
handler at lines 160-161. -/
def get_rag_response (emb : String → List Int) (env : RagEnv) (query : String)
    (include_sources : Bool) : String × List RagEv :=
  match env.vectorstore with
  | none => ("No medical documents available for reference.", [])
  | some vs =>
      match env.searchRaises with
      | some e => ("Error in RAG response: " ++ e, [RagEv.search])
      | none =>
          let docs := similarity_search emb vs query 3
          if docs.isEmpty then
            ("No relevant information found in medical documents.", [RagEv.search])
          else
            let context := joinWith "\n\n" (docs.map Doc.text)
            let parts :=
              if include_sources then
                ["Based on medical literature:", context] ++
                  ["\nSources:"] ++ docs.map pageLine
              else
                ["Based on medical literature:", context]
            (joinWith "\n" parts, [RagEv.search])

/-! ### Generative call (`ChatBot._get_gemini_response`, src/models/chat.py 163-193) -/

/-- An HTTP response from the generative API: status, raw body text, and the
extracted `candidates[0].content.parts[0].text` when the JSON has a
`candidates` key. -/
structure HttpResp where
  status : Nat
  text : String
  candidatesText : Option String

/-- Outcome of the generative HTTP call: a response, or a raised exception. -/
inductive HttpOutcome where
  | resp (r : HttpResp)
  | exc (msg : String)

/-- `ChatBot._get_gemini_response` (src/models/chat.py lines 163-193): non-200
responses become an inline `API Error: …` string, raised exceptions become a
generic failure string, and a 200 response without candidates becomes
`No response generated`. -/
def get_gemini_response (outcome : HttpOutcome) : String :=
  match outcome with
  | HttpOutcome.exc m => "Failed to generate response : " ++ m
  | HttpOutcome.resp r =>
      if r.status ≠ 200 then "API Error: " ++ r.text
      else
        match r.candidatesText with
        | some t => t
        | none => "No response generated"

/-! ### Answer composer (`ChatBot.generate_response`, src/models/chat.py 231-291) -/

/-- A chat message (src/models/chat.py lines 12-15). -/
structure ChatMessage where
  role : String
  content : String

/-- Environment of one `generate_response` call: the generative call's
outcome, the retrieval environment, and whether anything inside the
`st.spinner` block raises (caught at lines 289-291, returning `None`). -/
structure GenEnv where
  gemini : HttpOutcome
  rag : RagEnv
  excRaises : Option String

/-- The separator prepended to the RAG block (src/models/chat.py line 281). -/
def sourcesHeader : String := "\n\n📚 **Additional Research & Sources:**\n"

/-- The sentinel substring tested at src/models/chat.py line 280. -/
def noDocsSentinel : String := "No medical documents available"

/-- `ChatBot.generate_response` (src/models/chat.py lines 231-291): one
generative call produces the base answer; when `show_sources` is set and the
RAG response is non-empty and does not contain the sentinel, the RAG text is
appended after a header; exceptions yield `None`. -/
def generate_response (emb : String → List Int) (env : GenEnv) (prompt : String)
    (_history : List ChatMessage) (show_sources : Bool) :
    Option (String × String) :=
  match env.excRaises with
  | some _ => none
  | none =>
      let base := get_gemini_response env.gemini
      if show_sources then
        let rag := (get_rag_response emb env.rag prompt true).1
        if rag = "" ∨ strContains rag noDocsSentinel = true then
          some (base, base)
        else
          some (base, base ++ sourcesHeader ++ rag)
      else
        some (base, base)

/-! ### Offline index creation (`create_new_vectorstore`, src/create_vectorstore.py 12-88) -/

/-- Failure outcomes of `create_new_vectorstore`, one per distinct
`return False` path (the spec's error taxonomy names for the printed
messages): missing API key (lines 21-23), missing PDF (lines 45-49,
`SourceNotFound`), empty chunk list (lines 63-65, `EmptyCorpusError`), and
any raised exception (lines 83-88). -/
inductive CVErr where
  | noApiKey
  | sourceNotFound
  | emptyCorpus
  | excFailure
deriving DecidableEq

/-- Environment of one `create_new_vectorstore` run: the configured API key,
the index directory contents before the run, and oracles for the fallible
third-party calls (embedding-client construction, PDF parse,
`FAISS.from_documents`, `save_local`). -/
structure CVEnv where
  apiKey : Option String
  primary0 : Option VIndex
  embedInitOk : Bool
  pdfDocs : Option (List Doc)
  loadOk : Bool
  fromDocumentsOk : Bool
  saveOk : Bool

/-- Observable events of `create_new_vectorstore`. -/
inductive CVEv where
  | rmOld
  | build
  | save
deriving DecidableEq

/-- Per-page chunking (src/create_vectorstore.py lines 56-61): one chunk per
page, re-tagged with 1-based page numbers. -/
def perPage (docs : List Doc) : List Doc :=
  docs.enum.map (fun p => { p.2 with page := p.1 + 1 })

/-- `create_new_vectorstore` (src/create_vectorstore.py lines 12-88): remove
any existing store, probe the PDF, chunk per page, fail on an empty chunk
list, build, and save.  The second component is the index directory's final
contents, the third the event trace. -/
def create_new_vectorstore (emb : String → List Int) (env : CVEnv) :
    Except CVErr VIndex × Option VIndex × List CVEv :=
  match env.apiKey with
  | none => (Except.error CVErr.noApiKey, env.primary0, [])
  | some _ =>
      if env.embedInitOk = false then
        (Except.error CVErr.excFailure, env.primary0, [])
      else
        let ev0 : List CVEv := if env.primary0.isSome then [CVEv.rmOld] else []
        match env.pdfDocs with
        | none => (Except.error CVErr.sourceNotFound, none, ev0)
        | some documents =>
            if env.loadOk = false then
              (Except.error CVErr.excFailure, none, ev0)
            else
              let chunks := perPage documents
              if chunks.isEmpty then
                (Except.error CVErr.emptyCorpus, none, ev0)
              else if env.fromDocumentsOk = false then
                (Except.error CVErr.excFailure, none, ev0 ++ [CVEv.build])
              else
                let vs := FAISS_from_documents emb chunks
                if env.saveOk = false then
                  (Except.error CVErr.excFailure, none, ev0 ++ [CVEv.build])
                else
                  (Except.ok vs, some vs, ev0 ++ [CVEv.build, CVEv.save])

/-- C5 (amended): a query-time failure triggers no re-load attempt of the
index: no execution path of `get_rag_response` records a reload event, and a
raised search exception is converted directly into an error string embedding
the exception text rather than a fixed apology after a retry. -/
theorem C5_query_failure_returns_error_without_reload (emb : String → List Int)
    (env : RagEnv) (query : String) (inc : Bool) (vs : VIndex) (e : String) :
    RagEv.reloadVectorstore ∉ (get_rag_response emb env query inc).2 ∧
    (env.vectorstore = some vs → env.searchRaises = some e →
      (get_rag_response emb env query inc).1 = "Error in RAG response: " ++ e) := by
  obtain ⟨ovs, osr⟩ := env
  cases ovs with
  | none => simp [get_rag_response]
  | some vs' =>
      cases osr with
      | some e' =>
          constructor
          · simp [get_rag_response]
          · intro _ h2
            injection h2 with he
            subst he
            simp [get_rag_response]
      | none =>
          constructor
          · by_cases hd : (similarity_search emb vs' query 3).isEmpty <;>
              simp [get_rag_response, hd]
          · intro _ h2
            exact absurd h2 (by simp)

/-- C8: building an index from an empty chunk set fails (the spec's
`EmptyCorpusError`), no index is written to disk, and no usable-but-empty
index is returned — on both the online rebuild path of `_load_vectorstore`
and the offline `create_new_vectorstore` script. -/
theorem C8_empty_corpus_never_builds (emb : String → List Int)
    (split : List Doc → List Doc) (env : Env) (cenv : CVEnv)
    (docs : List Doc) (key : String) :
    (env.pdfDocs = some docs → split docs = [] →
      rebuild emb split env =
        (none, { env.fs0 with lock := false },
         [Ev.touchLock, Ev.emptyChunks, Ev.rmLock])) ∧
    (cenv.apiKey = some key → cenv.embedInitOk = true → cenv.loadOk = true →
      cenv.pdfDocs = some [] →
      (create_new_vectorstore emb cenv).1 = Except.error CVErr.emptyCorpus ∧
      (create_new_vectorstore emb cenv).2.1 = none ∧
      CVEv.save ∉ (create_new_vectorstore emb cenv).2.2) := by
  constructor
  · intro hpdf hsplit
    simp [rebuild, hpdf, hsplit]
  · intro hk hei hlo hpdf
    cases hpp : cenv.primary0 <;>
      simp [create_new_vectorstore, hk, hei, hlo, hpdf, perPage, hpp]

/-- C9: every generative-call failure is converted to user-facing text rather
than propagated: a non-200 HTTP response yields an inline `API Error: …`
string, a raised exception yields a generic failure string, and
`generate_response` returns `None` (it never raises) when its body raises. -/
theorem C9_generative_failures_become_text (r : HttpResp) (m : String)
    (emb : String → List Int) (env : GenEnv) (prompt : String)
    (history : List ChatMessage) (ss : Bool) :
    (r.status ≠ 200 →
      get_gemini_response (HttpOutcome.resp r) = "API Error: " ++ r.text) ∧
    (get_gemini_response (HttpOutcome.exc m) = "Failed to generate response : " ++ m) ∧
    (env.excRaises = some m → generate_response emb env prompt history ss = none) := by
  refine ⟨fun h => ?_, rfl, fun h => ?_⟩
  · simp [get_gemini_response, h]
  · simp [generate_response, h]

/-- C6 (amended): when sources are requested and retrieval returns a nonempty
result set (k = 3), the final answer is the direct answer followed by the RAG
block, which contains a sources section listing each retrieved chunk's source
and its individual page number; no min/max page range and no per-chunk
extractive summary are produced (each chunk's full text is embedded instead).
The sentinel hypothesis excludes retrieved text that itself contains the
string tested at src/models/chat.py line 280. -/
theorem C6_sources_block_lists_individual_pages (emb : String → List Int)
    (env : GenEnv) (prompt : String) (history : List ChatMessage) (vs : VIndex)
    (d : Doc) (ds : List Doc)
    (hexc : env.excRaises = none)
    (hvs : env.rag.vectorstore = some vs)
    (hsr : env.rag.searchRaises = none)
    (hdocs : similarity_search emb vs prompt 3 = d :: ds)
    (hpat : strContains (get_rag_response emb env.rag prompt true).1
      noDocsSentinel = false) :
    generate_response emb env prompt history true =
      some (get_gemini_response env.gemini,
        get_gemini_response env.gemini ++ sourcesHeader ++
          (get_rag_response emb env.rag prompt true).1) ∧
    strStarts (get_gemini_response env.gemini ++ sourcesHeader ++
        (get_rag_response emb env.rag prompt true).1)
      (get_gemini_response env.gemini) = true ∧
    strContains (get_gemini_response env.gemini ++ sourcesHeader ++
        (get_rag_response emb env.rag prompt true).1) "\nSources:" = true ∧
    ∀ x ∈ d :: ds,
      strContains (get_gemini_response env.gemini ++ sourcesHeader ++
        (get_rag_response emb env.rag prompt true).1) (pageLine x) = true := by
  have h1 : (get_rag_response emb env.rag prompt true).1 =
      joinWith "\n" ("Based on medical literature:" ::
        joinWith "\n\n" ((d :: ds).map Doc.text) :: "\nSources:" ::
        (d :: ds).map pageLine) := by
    simp [get_rag_response, hvs, hsr, hdocs]
  have hne : (get_rag_response emb env.rag prompt true).1 ≠ "" := by
    rw [h1]
    exact joinWith_cons_ne_empty _ _ _ (by decide)
  have hcond : ¬((get_rag_response emb env.rag prompt true).1 = "" ∨
      strContains (get_rag_response emb env.rag prompt true).1
        noDocsSentinel = true) := by
    rintro (h | h)
    · exact hne h
    · rw [h] at hpat
      exact absurd hpat (by decide)
  refine ⟨?_, strStarts_append2 _ _ _, ?_, ?_⟩
  · simp only [generate_response, hexc]
    rw [if_neg hcond]
    simp
  · rw [h1]
    apply strContains_append2
    exact strContains_joinWith _ _ _
      (List.mem_cons_of_mem _ (List.mem_cons_of_mem _ (List.mem_cons_self _ _)))
  · intro x hx
    rw [h1]
    apply strContains_append2
    exact strContains_joinWith _ _ _
      (List.mem_cons_of_mem _ (List.mem_cons_of_mem _ (List.mem_cons_of_mem _
        (List.mem_map_of_mem pageLine hx))))

/-- C7 (amended): whenever `generate_response` returns, the direct answer is
a prefix of the final answer; the final answer equals the direct answer
exactly when sources are not requested or when the RAG layer reports that no
vector store is available. When sources are requested and the RAG layer
returns any other text — including the error or no-results messages produced
by an empty or failed retrieval — that text is appended after the header, so
the final answer differs from the direct answer. -/
theorem C7_direct_answer_always_a_prefix (emb : String → List Int)
    (env : GenEnv) (prompt : String) (history : List ChatMessage) (ss : Bool)
    (hexc : env.excRaises = none) :
    ∃ final, generate_response emb env prompt history ss =
        some (get_gemini_response env.gemini, final) ∧
      strStarts final (get_gemini_response env.gemini) = true ∧
      (ss = false → final = get_gemini_response env.gemini) ∧
      (env.rag.vectorstore = none → final = get_gemini_response env.gemini) := by
  cases ss with
  | false =>
      refine ⟨get_gemini_response env.gemini, ?_, strStarts_self _,
        fun _ => rfl, fun _ => rfl⟩
      simp [generate_response, hexc]
  | true =>
      by_cases hcond : ((get_rag_response emb env.rag prompt true).1 = "" ∨
          strContains (get_rag_response emb env.rag prompt true).1
            noDocsSentinel = true)
      · refine ⟨get_gemini_response env.gemini, ?_, strStarts_self _,
          fun h => absurd h (by decide), fun _ => rfl⟩
        simp only [generate_response, hexc]
        rw [if_pos hcond]
        simp
      · refine ⟨get_gemini_response env.gemini ++ sourcesHeader ++
            (get_rag_response emb env.rag prompt true).1, ?_,
          strStarts_append2 _ _ _, fun h => absurd h (by decide), fun hnone => ?_⟩
        · simp only [generate_response, hexc]
          rw [if_neg hcond]
          simp
        · exfalso
          apply hcond
          right
          have hmsg : (get_rag_response emb env.rag prompt true).1 =
              "No medical documents available for reference." := by
            simp [get_rag_response, hnone]
          rw [hmsg]
          decide

/-! ### Concrete fixtures for witnesses and counterexamples -/

/-- A constant embedding function used to instantiate the oracles. -/
def emb0 : String → List Int := fun _ => [0]

/-- The identity text splitter. -/
def split0 : List Doc → List Doc := fun l => l

/-- A one-chunk corpus. -/
def d0 : Doc := ⟨"chunk text", "GALE", 1⟩

/-- A one-chunk index standing for a pre-existing primary store. -/
def vsP : VIndex := ⟨[⟨"primary", "GALE", 2⟩], [[1]]⟩

/-- A one-chunk index standing for a pre-existing backup store. -/
def vsB : VIndex := ⟨[⟨"backup", "GALE", 3⟩], [[2]]⟩

/-- Three chunks with pages 4, 9, 4 — the spec's own §8 example. -/
def docs3 : List Doc :=
  [⟨"alpha", "GALE", 4⟩, ⟨"beta", "GALE", 9⟩, ⟨"gamma", "GALE", 4⟩]

/-- The index over `docs3`. -/
def vs3 : VIndex := FAISS_from_documents emb0 docs3

/-- Lifecycle environment entering a rebuild with a stale lock while both
primary and backup exist. -/
def envW3 : Env :=
  ⟨⟨some vsP, some vsB, true⟩, true, true, true, some [d0], true, true, true⟩

/-- Lifecycle environment: primary absent, loadable backup present, no lock. -/
def envC4x : Env :=
  ⟨⟨none, some vsB, false⟩, true, true, true, some [d0], true, true, true⟩

/-- Lifecycle environment: nothing on disk, successful rebuild. -/
def envW2 : Env :=
  ⟨⟨none, none, false⟩, true, true, true, some [d0], true, true, true⟩

/-- Lifecycle environment: primary present but fails to load, backup loads. -/
def envW4 : Env :=
  ⟨⟨some vsP, some vsB, false⟩, true, false, true, some [d0], true, true, true⟩

/-- Answer-composer environment with a healthy generative call and an index
over the pages [4, 9, 4] corpus. -/
def genEnv6 : GenEnv :=
  ⟨HttpOutcome.resp ⟨200, "", some "ANSWER"⟩, ⟨some vs3, none⟩, none⟩

/-- Answer-composer environment whose retrieval raises at query time. -/
def genEnv7 : GenEnv :=
  ⟨HttpOutcome.resp ⟨200, "", some "ANSWER"⟩, ⟨some vsP, some "timeout"⟩, none⟩

/-- Answer-composer environment with a healthy generative call and a loaded
index, sources not requested. -/
def genEnvOk : GenEnv :=
  ⟨HttpOutcome.resp ⟨200, "", some "ANSWER"⟩, ⟨some vsP, none⟩, none⟩

/-- Retrieval environment whose search raises with message `boom`. -/
def ragEnvFail : RagEnv := ⟨some vsP, some "boom"⟩

/-- Retrieval environment whose search raises with message `timeout`. -/
def ragEnvFail2 : RagEnv := ⟨some vsP, some "timeout"⟩

/-- Lifecycle environment whose PDF splits into an empty chunk list. -/
def envW8 : Env :=
  ⟨⟨some vsP, none, true⟩, true, true, true, some [], true, true, true⟩

/-- Offline-builder environment whose PDF yields no pages. -/
def cenvW8 : CVEnv := ⟨some "k", some vsP, true, some [], true, true, true⟩

/-! ### Counterexamples and witnesses -/

/-- C2 witness: on a concrete full rebuild from an empty disk, the final
state has no lock file and the lock removal is on the trace. -/
theorem C2_lock_marker_lifecycle_witness :
    (loadVectorstore emb0 split0 envW2).2.1.lock = false ∧
    Ev.rmLock ∈ (loadVectorstore emb0 split0 envW2).2.2 :=
  ⟨(C2_lock_marker_lifecycle emb0 split0 envW2).1,
   (C2_lock_marker_lifecycle emb0 split0 envW2).2.2 (by decide)⟩

/-- C3 witness: concrete successful rebuild over an existing primary. -/
theorem C3_old_primary_backed_up_before_save_witness :
    (loadVectorstore emb0 split0 envW3).1 = some (FAISS_from_documents emb0 [d0]) ∧
    (loadVectorstore emb0 split0 envW3).2.1 =
      ⟨some (FAISS_from_documents emb0 [d0]), some vsP, false⟩ ∧
    ∃ pre, (loadVectorstore emb0 split0 envW3).2.2 =
        pre ++ [Ev.touchLock, Ev.buildStart true, Ev.copyPrimaryToBackup,
                Ev.savePrimary, Ev.rmLock] ∧
      Ev.copyPrimaryToBackup ∉ pre ∧ Ev.savePrimary ∉ pre :=
  C3_old_primary_backed_up_before_save emb0 split0 envW3 vsP [d0] d0 []
    (by decide) rfl rfl rfl rfl rfl rfl

/-- C4 counterexample: primary absent and a loadable backup present, yet the
loader records no backup attempt, re-creates the lock and rebuilds, and the
result is not the backup content — refuting the claim that an absent primary
leads to a backup attempt before any rebuild. -/
theorem C4_counterexample :
    Ev.loadBackup true ∉ (loadVectorstore emb0 split0 envC4x).2.2 ∧
    Ev.loadBackup false ∉ (loadVectorstore emb0 split0 envC4x).2.2 ∧
    Ev.touchLock ∈ (loadVectorstore emb0 split0 envC4x).2.2 ∧
    (loadVectorstore emb0 split0 envC4x).1 ≠ some vsB := by decide

/-- C4 witness: when the primary exists, no lock is present, its load fails
and the backup loads, the result is the backup content with no rebuild. -/
theorem C4_backup_only_after_primary_load_failure_witness :
    loadVectorstore emb0 split0 envW4 =
      (some vsB, envW4.fs0, [Ev.loadPrimary false, Ev.loadBackup true]) :=
  (C4_backup_only_after_primary_load_failure emb0 split0 envW4 vsB).1
    rfl rfl rfl rfl rfl vsP rfl

/-- C5 counterexample: a concrete query-time failure records no reload
attempt (the claim requires exactly one) and returns a message embedding the
exception text — two different exceptions yield two different messages, so
the reply is not a fixed apology either. -/
theorem C5_counterexample :
    RagEv.reloadVectorstore ∉ (get_rag_response emb0 ragEnvFail "q" false).2 ∧
    (get_rag_response emb0 ragEnvFail "q" false).1 = "Error in RAG response: boom" ∧
    (get_rag_response emb0 ragEnvFail2 "q" false).1 ≠
      (get_rag_response emb0 ragEnvFail "q" false).1 := by decide

/-- C5 witness: concrete instantiation of the amended claim. -/
theorem C5_query_failure_returns_error_without_reload_witness :
    (get_rag_response emb0 ⟨some vsP, some "x"⟩ "q" true).1 =
      "Error in RAG response: " ++ "x" :=
  (C5_query_failure_returns_error_without_reload emb0 ⟨some vsP, some "x"⟩
    "q" true vsP "x").2 rfl rfl

/-- C6 counterexample: with retrieved pages [4, 9, 4] the final answer is
produced but contains no min/max page-range citation (neither `4–9` nor
`4-9` nor the spec's example `Pages 4–9` occurs in it). -/
theorem C6_counterexample :
    (similarity_search emb0 vs3 "q" 3).map Doc.page = [4, 9, 4] ∧
    (generate_response emb0 genEnv6 "q" [] true).isSome = true ∧
    strContains (((generate_response emb0 genEnv6 "q" [] true).getD ("", "")).2)
      "4–9" = false ∧
    strContains (((generate_response emb0 genEnv6 "q" [] true).getD ("", "")).2)
      "4-9" = false ∧
    strContains (((generate_response emb0 genEnv6 "q" [] true).getD ("", "")).2)
      "Pages 4–9" = false := by decide

/-- C6 witness: concrete instantiation of the amended claim over the
pages [4, 9, 4] corpus. -/
theorem C6_sources_block_lists_individual_pages_witness :
    generate_response emb0 genEnv6 "q" [] true =
      some (get_gemini_response genEnv6.gemini,
        get_gemini_response genEnv6.gemini ++ sourcesHeader ++
          (get_rag_response emb0 genEnv6.rag "q" true).1) ∧
    strStarts (get_gemini_response genEnv6.gemini ++ sourcesHeader ++
        (get_rag_response emb0 genEnv6.rag "q" true).1)
      (get_gemini_response genEnv6.gemini) = true ∧
    strContains (get_gemini_response genEnv6.gemini ++ sourcesHeader ++
        (get_rag_response emb0 genEnv6.rag "q" true).1) "\nSources:" = true ∧
    ∀ x ∈ (⟨"alpha", "GALE", 4⟩ : Doc) ::
        [(⟨"beta", "GALE", 9⟩ : Doc), (⟨"gamma", "GALE", 4⟩ : Doc)],
      strContains (get_gemini_response genEnv6.gemini ++ sourcesHeader ++
        (get_rag_response emb0 genEnv6.rag "q" true).1) (pageLine x) = true :=
  C6_sources_block_lists_individual_pages emb0 genEnv6 "q" [] vs3
    ⟨"alpha", "GALE", 4⟩ [⟨"beta", "GALE", 9⟩, ⟨"gamma", "GALE", 4⟩]
    rfl rfl rfl (by decide) (by decide)

/-- C7 counterexample: sources requested while retrieval fails at query time
(yielding nothing usable), yet the final answer is the direct answer with the
error text appended, not the direct answer itself. -/
theorem C7_counterexample :
    generate_response emb0 genEnv7 "q" [] true =
      some ("ANSWER",
        "ANSWER" ++ sourcesHeader ++ "Error in RAG response: timeout") ∧
    ("ANSWER" ++ sourcesHeader ++ "Error in RAG response: timeout") ≠
      "ANSWER" := by decide

/-- C7 witness: concrete instantiation with sources not requested. -/
theorem C7_direct_answer_always_a_prefix_witness :
    ∃ final, generate_response emb0 genEnvOk "q" [] false =
        some (get_gemini_response genEnvOk.gemini, final) ∧
      strStarts final (get_gemini_response genEnvOk.gemini) = true ∧
      (false = false → final = get_gemini_response genEnvOk.gemini) ∧
      (genEnvOk.rag.vectorstore = none →
        final = get_gemini_response genEnvOk.gemini) :=
  C7_direct_answer_always_a_prefix emb0 genEnvOk "q" [] false rfl

/-- C8 witness: concrete empty chunk sets on both build paths. -/
theorem C8_empty_corpus_never_builds_witness :
    (rebuild emb0 split0 envW8 =
      (none, { envW8.fs0 with lock := false },
       [Ev.touchLock, Ev.emptyChunks, Ev.rmLock])) ∧
    ((create_new_vectorstore emb0 cenvW8).1 = Except.error CVErr.emptyCorpus ∧
     (create_new_vectorstore emb0 cenvW8).2.1 = none ∧
     CVEv.save ∉ (create_new_vectorstore emb0 cenvW8).2.2) :=
  ⟨(C8_empty_corpus_never_builds emb0 split0 envW8 cenvW8 [] "k").1 rfl rfl,
   (C8_empty_corpus_never_builds emb0 split0 envW8 cenvW8 [] "k").2
     rfl rfl rfl rfl⟩

/-- C9 witness: concrete non-200 response, exception, and caught composer
failure. -/
theorem C9_generative_failures_become_text_witness :
    (get_gemini_response (HttpOutcome.resp ⟨500, "quota", none⟩) =
      "API Error: " ++ "quota") ∧
    (get_gemini_response (HttpOutcome.exc "boom") =
      "Failed to generate response : " ++ "boom") ∧
    generate_response emb0 ⟨HttpOutcome.exc "c", ⟨none, none⟩, some "boom"⟩
      "q" [] true = none :=
  ⟨(C9_generative_failures_become_text ⟨500, "quota", none⟩ "boom" emb0
      ⟨HttpOutcome.exc "c", ⟨none, none⟩, some "boom"⟩ "q" [] true).1
      (by decide),
   (C9_generative_failures_become_text ⟨500, "quota", none⟩ "boom" emb0
      ⟨HttpOutcome.exc "c", ⟨none, none⟩, some "boom"⟩ "q" [] true).2.1,
   (C9_generative_failures_become_text ⟨500, "quota", none⟩ "boom" emb0
      ⟨HttpOutcome.exc "c", ⟨none, none⟩, some "boom"⟩ "q" [] true).2.2 rfl⟩

/-- C10 witness: concrete stale lock with both stores present forces a
rebuild with no load attempt. -/
theorem C10_stale_lock_forces_rebuild_witness :
    loadVectorstore emb0 split0 envW3 = rebuild emb0 split0 envW3 ∧
    (∀ ok, Ev.loadPrimary ok ∉ (loadVectorstore emb0 split0 envW3).2.2 ∧
           Ev.loadBackup ok ∉ (loadVectorstore emb0 split0 envW3).2.2) ∧
    Ev.touchLock ∈ (loadVectorstore emb0 split0 envW3).2.2 :=
  C10_stale_lock_forces_rebuild emb0 split0 envW3 vsP vsB rfl rfl rfl rfl

end HealthGenie
